import Mathlib

/-!
Shallow embedding of the request/response normalization layer and the
session-lifecycle controller of the IPProxy admin console.

Sources embedded:
* `src/services/productInventory.ts` — the axios instance `request` and its
  response interceptor (`request.interceptors.response.use(onFulfilled, onRejected)`).
* `src/types/user.ts` — the `AuthProvider` component: `checkAuth`, `login`,
  `logout`, and the derived `isAuthenticated` flag.

Backend payloads are JavaScript values inspected with JS truthiness and
strict equality, so we model a small JS value type `JVal`.  Numbers are
modelled as `Int`: every numeric literal the code compares against is an
integer, and no arithmetic is performed on payload numbers.
-/

namespace IPProxy

/-- JavaScript-style JSON value, as produced by axios parsing a response
body.  `undefined` is the value of an absent property access. -/
inductive JVal where
  | undefined
  | null
  | boolean (b : Bool)
  | num (n : Int)
  | str (s : String)
  | obj (fields : List (String × JVal))

/-- JS truthiness of a value (`!!v`).  `undefined`, `null`, `false`, `0` and
the empty string are falsy; objects are always truthy. -/
def JVal.truthy : JVal → Bool
  | .undefined => false
  | .null => false
  | .boolean b => b
  | .num n => n != 0
  | .str s => s != ""
  | .obj _ => true

/-- Property lookup in an object's field list (first binding wins). -/
def lookupField (k : String) : List (String × JVal) → JVal
  | [] => .undefined
  | (k', v) :: rest => if k' = k then v else lookupField k rest

/-- JS property access `v.k`: on objects it looks the key up, elsewhere it
yields `undefined` (the payloads the interceptor inspects are objects). -/
def JVal.get : JVal → String → JVal
  | .obj fs, k => lookupField k fs
  | _, _ => .undefined

/-- JS strict equality `v === m` against an integer literal `m`: true only
when `v` is that number. -/
def JVal.eqNum : JVal → Int → Bool
  | .num n, m => n == m
  | _, _ => false

/-- Whether an object payload carries a field named `k` at all (presence,
not truthiness). -/
def JVal.hasField : JVal → String → Bool
  | .obj fs, k => fs.any (fun p => p.1 == k)
  | _, _ => false

/-- JS short-circuit `a || b`: the first truthy operand, else `b`. -/
def jsOr (a b : JVal) : JVal := if a.truthy then a else b

/-- Success-shape test of the response interceptor in
`productInventory.ts`: `data.code === 0 || data.code === 200 || (data.data && !data.code)`. -/
def isSuccessShape (d : JVal) : Bool :=
  (d.get "code").eqNum 0 || (d.get "code").eqNum 200 ||
    ((d.get "data").truthy && !(d.get "code").truthy)

/-- Outcome of the fulfilled response handler: either the response goes on
with its `data` rewritten to the canonical envelope, or an `ApiError` is
thrown carrying a message and the original response (the interceptor
attaches `error.response = response`). -/
inductive RespResult where
  | fulfilled (envelope : JVal)
  | apiError (msg : JVal) (resp : JVal)

/-- The fulfilled handler of `request.interceptors.response.use` in
`productInventory.ts`, as a function of the raw response body `d`.
On a success shape it rewrites the body to
`code: 0, message: data.message || data.msg || '操作成功', data: data.data`;
otherwise it throws `ApiError(data.message || data.msg || '请求失败')` with
the original response attached. -/
def responseOnFulfilled (d : JVal) : RespResult :=
  if isSuccessShape d then
    .fulfilled (.obj [("code", .num 0),
                      ("message", jsOr (d.get "message") (jsOr (d.get "msg") (.str "操作成功"))),
                      ("data", d.get "data")])
  else
    .apiError (jsOr (d.get "message") (jsOr (d.get "msg") (.str "请求失败"))) d

/-- A transport-level axios failure object: `error.response` (HTTP status
plus parsed body) when a response arrived, `error.request` presence, and the
original error message. -/
structure AxiosFailure where
  response : Option (Int × JVal)
  hasRequest : Bool
  message : String

/-- Classified rejection produced by the rejected handler. -/
inductive RejectKind where
  | sessionExpired (msg : String)
  | httpError (msg : JVal)
  | networkError (msg : String)
  | originalError (e : AxiosFailure)

/-- Result of running the rejected handler: the token cell of local storage
afterwards, how many redirects to `/login` were triggered, and the rejection
value. -/
structure RejectOutcome where
  store : Option String
  redirects : Nat
  rejected : RejectKind

/-- The rejected handler of `request.interceptors.response.use` in
`productInventory.ts`.  With a response of status 401 it removes the stored
token, sets `window.location.href = '/login'` (one redirect) and rejects
with `登录已过期，请重新登录`; with any other status it throws
`Error(error.response.data?.message || error.response.data?.msg || '请求失败')`;
with no response but a request it throws the generic network error; and
otherwise it rethrows the original error unmodified. -/
def responseOnRejected (st : Option String) (e : AxiosFailure) : RejectOutcome :=
  match e.response with
  | some (status, d) =>
      if status = 401 then
        { store := none, redirects := 1,
          rejected := .sessionExpired "登录已过期，请重新登录" }
      else
        { store := st, redirects := 0,
          rejected := .httpError (jsOr (d.get "message") (jsOr (d.get "msg") (.str "请求失败"))) }
  | none =>
      if e.hasRequest then
        { store := st, redirects := 0, rejected := .networkError "网络错误，请检查网络连接" }
      else
        { store := st, redirects := 0, rejected := .originalError e }

/-- Envelope the auth service resolves with: `code`, optional `message`,
optional `data` payload.  `data = none` models an absent/falsy data field
(the payloads carried are objects, which are truthy when present). -/
structure Envelope (α : Type) where
  code : Int
  message : Option String
  data : Option α

/-- A thrown JS error as observed by the `catch` blocks of `user.ts`:
`error.response?.status` and the error message. -/
structure JsError where
  status : Option Int
  message : String

/-- The `AuthProvider` state of `user.ts` together with the localStorage
`token` cell: React state `user`, `loading`, `initialized`, and the stored
credential token (`localStorage.getItem('token')`). -/
structure AuthState (U : Type) where
  user : Option U
  loading : Bool
  initialized : Bool
  token : Option String

/-- JS truthiness of `localStorage.getItem('token')`: `null` and the empty
string are falsy. -/
def tokenTruthy : Option String → Bool
  | none => false
  | some t => t != ""

/-- Result of one `checkAuth` run: the state afterwards and how many remote
`getCurrentUser` calls were issued. -/
structure CheckResult (U : Type) where
  state : AuthState U
  calls : Nat

/-- The `checkAuth` callback of `AuthProvider` in `user.ts`, with the
outcome of the remote `getCurrentUser()` call supplied as an oracle
(`remote`).  If already initialized it returns at once.  With a falsy token
it sets the user to `null` and finishes without a network call.  Otherwise
it awaits `getCurrentUser()`: on `code === 0 && data` it stores the user; on
any other resolved envelope it clears user and token; on a rejection it
clears user and token only when `error.response?.status === 401`.  The
`finally` block always sets `loading := false` and `initialized := true`. -/
def checkAuth {U : Type} (s : AuthState U) (remote : Except JsError (Envelope U)) :
    CheckResult U :=
  if s.initialized then ⟨s, 0⟩
  else if tokenTruthy s.token = false then
    ⟨{ s with user := none, loading := false, initialized := true }, 0⟩
  else
    match remote with
    | .ok resp =>
        if resp.code = 0 ∧ resp.data.isSome = true then
          ⟨{ s with user := resp.data, loading := false, initialized := true }, 1⟩
        else
          ⟨{ s with user := none, token := none, loading := false, initialized := true }, 1⟩
    | .error e =>
        if e.status = some 401 then
          ⟨{ s with token := none, user := none, loading := false, initialized := true }, 1⟩
        else
          ⟨{ s with loading := false, initialized := true }, 1⟩

/-- The `data` payload of a resolved login envelope: optional `token` and
optional `user` fields (absent fields are `none`; a present user object is
truthy). -/
structure LoginData (U : Type) where
  token : Option String
  user : Option U

/-- An error rejected out of `login` in `user.ts`: either a `new Error(msg)`
thrown by `login` itself, or the upstream rejection from the auth service
rethrown unmodified. -/
inductive ThrownError where
  | jsError (msg : String)
  | upstream (e : JsError)

/-- JS `a || d` for an optional string against a string default: the string
when present and non-empty, else the default. -/
def orStr : Option String → String → String
  | some s, d => if s = "" then d else s
  | none, d => d

/-- Modelled from the spec: the auth service (`@/services/auth`, whose
source is not in the repository snapshot — `user.ts` only imports it) is
described by §4.2 as persisting the token on success, and the source
comment in `user.ts` notes the token is already saved inside the auth
service.  We model it as writing to storage whatever non-empty token the
resolved envelope carries, before `login` in `user.ts` inspects the
envelope; with no token in the response the stored value is untouched. -/
def authPersistToken {U : Type} (tok : Option String) (env : Envelope (LoginData U)) :
    Option String :=
  match env.data with
  | some d =>
      match d.token with
      | some t => if t = "" then tok else some t
      | none => tok
  | none => tok

/-- The `login` function of `AuthProvider` in `user.ts`, with the outcome of
`authLogin(username, password)` supplied as an oracle (`auth`).  It sets
`loading := true`, awaits the auth service, and then: on
`response.code === 200 && response.data` it destructures `token, user`
and throws `登录响应数据不完整` when either is falsy, else sets the user;
on any other envelope it throws `Error(response.message || '登录失败')`;
the `catch` block removes the stored token, sets the user to `null` and
rethrows; the `finally` block sets `loading := false`. -/
def login {U : Type} (s : AuthState U) (auth : Except JsError (Envelope (LoginData U))) :
    AuthState U × Except ThrownError Unit :=
  match auth with
  | .error e =>
      ({ s with token := none, user := none, loading := false }, .error (.upstream e))
  | .ok env =>
      let tok := authPersistToken s.token env
      match env.data with
      | some d =>
          if env.code = 200 then
            if tokenTruthy d.token && d.user.isSome then
              ({ s with token := tok, user := d.user, loading := false }, .ok ())
            else
              ({ s with token := none, user := none, loading := false },
                .error (.jsError "登录响应数据不完整"))
          else
            ({ s with token := none, user := none, loading := false },
              .error (.jsError (orStr env.message "登录失败")))
      | none =>
          ({ s with token := none, user := none, loading := false },
            .error (.jsError (orStr env.message "登录失败")))

/-- The `logout` callback of `AuthProvider` in `user.ts`: remove the stored
token, set the user to `null`, and reset the initialized flag. -/
def logout {U : Type} (s : AuthState U) : AuthState U :=
  { s with token := none, user := none, initialized := false }

/-- The derived `isAuthenticated` flag exposed by `AuthProvider`:
`isAuthenticated: !!user`. -/
def isAuthenticated {U : Type} (s : AuthState U) : Bool := s.user.isSome

/-- Session states reachable from a fresh `AuthProvider` mount (user null,
loading true, initialized false, arbitrary stored token) through the three
operations, each driven by an arbitrary remote outcome. -/
inductive Reachable {U : Type} : AuthState U → Prop where
  | boot (t : Option String) :
      Reachable { user := none, loading := true, initialized := false, token := t }
  | doCheck {s : AuthState U} (r : Except JsError (Envelope U)) :
      Reachable s → Reachable (checkAuth s r).state
  | doLogin {s : AuthState U} (a : Except JsError (Envelope (LoginData U))) :
      Reachable s → Reachable (login s a).1
  | doLogout {s : AuthState U} : Reachable s → Reachable (logout s)

/-! ## Helper lemmas about the canonical envelope -/

theorem envGet_code (m d : JVal) :
    (JVal.obj [("code", .num 0), ("message", m), ("data", d)]).get "code" = .num 0 := rfl

theorem envGet_message (m d : JVal) :
    (JVal.obj [("code", .num 0), ("message", m), ("data", d)]).get "message" = m := rfl

theorem envGet_data (m d : JVal) :
    (JVal.obj [("code", .num 0), ("message", m), ("data", d)]).get "data" = d := rfl

theorem jsOr_of_truthy {a : JVal} (b : JVal) (h : a.truthy = true) : jsOr a b = a := by
  simp [jsOr, h]

theorem jsOr_of_falsy {a : JVal} (b : JVal) (h : a.truthy = false) : jsOr a b = b := by
  simp [jsOr, h]

/-! ## Claims about the Request Normalizer -/

/-- C1 counterexample: the payload carrying a `data` field (value `null`)
and no `code` field at all is rejected with the generic failure `ApiError`
rather than rewritten into a canonical success envelope, because the source
tests `data.data && !data.code` with JS truthiness and `null` is falsy. -/
theorem falsy_data_field_rejected :
    JVal.hasField (.obj [("data", .null)]) "data" = true
    ∧ JVal.hasField (.obj [("data", .null)]) "code" = false
    ∧ responseOnFulfilled (.obj [("data", .null)]) =
        .apiError (.str "请求失败") (.obj [("data", .null)]) :=
  ⟨rfl, rfl, rfl⟩

/-- C1 (amended): for every payload with `code === 0`, or `code === 200`, or
a truthy `data` field together with a falsy (absent or falsy-valued) `code`
field, the fulfilled handler returns a canonical envelope with code 0, the
payload's `data` value unchanged, and message equal to the payload's
`message` field when truthy, else its `msg` field when truthy, else the
generic success string. -/
theorem success_shapes_yield_canonical_envelope (p : JVal)
    (h : (p.get "code").eqNum 0 = true ∨ (p.get "code").eqNum 200 = true
        ∨ ((p.get "data").truthy = true ∧ (p.get "code").truthy = false)) :
    ∃ env, responseOnFulfilled p = .fulfilled env
      ∧ env.get "code" = .num 0
      ∧ env.get "data" = p.get "data"
      ∧ ((p.get "message").truthy = true → env.get "message" = p.get "message")
      ∧ ((p.get "message").truthy = false → (p.get "msg").truthy = true →
           env.get "message" = p.get "msg")
      ∧ ((p.get "message").truthy = false → (p.get "msg").truthy = false →
           env.get "message" = .str "操作成功") := by
  have hs : isSuccessShape p = true := by
    rcases h with h | h | ⟨h1, h2⟩
    · simp [isSuccessShape, h]
    · simp [isSuccessShape, h]
    · simp [isSuccessShape, h1, h2]
  refine ⟨_, by rw [responseOnFulfilled, hs]; rfl, envGet_code _ _, envGet_data _ _,
    ?_, ?_, ?_⟩
  · intro h1
    rw [envGet_message, jsOr_of_truthy _ h1]
  · intro h1 h2
    rw [envGet_message, jsOr_of_falsy _ h1, jsOr_of_truthy _ h2]
  · intro h1 h2
    rw [envGet_message, jsOr_of_falsy _ h1, jsOr_of_falsy _ h2]

/-- C1 witness: the amended theorem applied to the concrete payload
`code: 200, msg: 'saved', data: 7`. -/
theorem success_shapes_yield_canonical_envelope_witness :
    ∃ env, responseOnFulfilled
        (.obj [("code", .num 200), ("msg", .str "saved"), ("data", .num 7)]) =
        .fulfilled env
      ∧ env.get "code" = .num 0
      ∧ env.get "data" =
          (JVal.obj [("code", .num 200), ("msg", .str "saved"), ("data", .num 7)]).get "data"
      ∧ (((JVal.obj [("code", .num 200), ("msg", .str "saved"), ("data", .num 7)]).get
            "message").truthy = true →
          env.get "message" =
            (JVal.obj [("code", .num 200), ("msg", .str "saved"), ("data", .num 7)]).get
              "message")
      ∧ (((JVal.obj [("code", .num 200), ("msg", .str "saved"), ("data", .num 7)]).get
            "message").truthy = false →
          ((JVal.obj [("code", .num 200), ("msg", .str "saved"), ("data", .num 7)]).get
            "msg").truthy = true →
          env.get "message" =
            (JVal.obj [("code", .num 200), ("msg", .str "saved"), ("data", .num 7)]).get "msg")
      ∧ (((JVal.obj [("code", .num 200), ("msg", .str "saved"), ("data", .num 7)]).get
            "message").truthy = false →
          ((JVal.obj [("code", .num 200), ("msg", .str "saved"), ("data", .num 7)]).get
            "msg").truthy = false →
          env.get "message" = .str "操作成功") :=
  success_shapes_yield_canonical_envelope
    (.obj [("code", .num 200), ("msg", .str "saved"), ("data", .num 7)]) (Or.inr (Or.inl rfl))

/-- C2 counterexample: the payload `code: null, data: (ok: true)` carries a
`code` field that is neither 0 nor 200, yet the interceptor treats it as a
success (the `code` value is falsy and `data` is truthy) instead of
rejecting as the claim requires. -/
theorem falsy_code_with_data_succeeds :
    JVal.hasField (.obj [("code", .null), ("data", .obj [("ok", .boolean true)])]) "code" = true
    ∧ (JVal.get (.obj [("code", .null), ("data", .obj [("ok", .boolean true)])]) "code").eqNum 0
        = false
    ∧ (JVal.get (.obj [("code", .null), ("data", .obj [("ok", .boolean true)])]) "code").eqNum 200
        = false
    ∧ responseOnFulfilled (.obj [("code", .null), ("data", .obj [("ok", .boolean true)])]) =
        .fulfilled (.obj [("code", .num 0), ("message", .str "操作成功"),
                          ("data", .obj [("ok", .boolean true)])]) :=
  ⟨rfl, rfl, rfl, rfl⟩

/-- C2 (amended): for every payload whose `code` field is truthy and is
neither the number 0 nor the number 200, the fulfilled handler throws an
`ApiError` whose message is the payload's `message` field when truthy, else
its `msg` field when truthy, else the generic failure string, with the
original response payload attached. -/
theorem truthy_bad_code_rejects_with_message (p : JVal)
    (hc : (p.get "code").truthy = true)
    (h0 : (p.get "code").eqNum 0 = false)
    (h200 : (p.get "code").eqNum 200 = false) :
    ∃ m, responseOnFulfilled p = .apiError m p
      ∧ ((p.get "message").truthy = true → m = p.get "message")
      ∧ ((p.get "message").truthy = false → (p.get "msg").truthy = true → m = p.get "msg")
      ∧ ((p.get "message").truthy = false → (p.get "msg").truthy = false →
           m = .str "请求失败") := by
  have hs : isSuccessShape p = false := by
    simp [isSuccessShape, hc, h0, h200]
  refine ⟨_, by rw [responseOnFulfilled, hs]; rfl, ?_, ?_, ?_⟩
  · intro h1
    rw [jsOr_of_truthy _ h1]
  · intro h1 h2
    rw [jsOr_of_falsy _ h1, jsOr_of_truthy _ h2]
  · intro h1 h2
    rw [jsOr_of_falsy _ h1, jsOr_of_falsy _ h2]

/-- C2 witness: the amended theorem applied to the concrete payload
`code: 500, msg: 'boom'`. -/
theorem truthy_bad_code_rejects_with_message_witness :
    ∃ m, responseOnFulfilled (.obj [("code", .num 500), ("msg", .str "boom")]) =
        .apiError m (.obj [("code", .num 500), ("msg", .str "boom")])
      ∧ (((JVal.obj [("code", .num 500), ("msg", .str "boom")]).get "message").truthy = true →
          m = (JVal.obj [("code", .num 500), ("msg", .str "boom")]).get "message")
      ∧ (((JVal.obj [("code", .num 500), ("msg", .str "boom")]).get "message").truthy = false →
          ((JVal.obj [("code", .num 500), ("msg", .str "boom")]).get "msg").truthy = true →
          m = (JVal.obj [("code", .num 500), ("msg", .str "boom")]).get "msg")
      ∧ (((JVal.obj [("code", .num 500), ("msg", .str "boom")]).get "message").truthy = false →
          ((JVal.obj [("code", .num 500), ("msg", .str "boom")]).get "msg").truthy = false →
          m = .str "请求失败") :=
  truthy_bad_code_rejects_with_message (.obj [("code", .num 500), ("msg", .str "boom")])
    rfl rfl rfl

/-- C3: a transport failure carrying HTTP status 401 always removes the
stored token, triggers exactly one redirect to `/login`, and rejects with
the session-expired error; and conversely any branch of the rejected
handler that changes storage or triggers a redirect is the 401 branch (the
fulfilled handler `responseOnFulfilled` touches neither storage nor
navigation — it is a pure function of the payload). -/
theorem unauthorized_clears_token_and_redirects :
    (∀ (st : Option String) (d : JVal) (req : Bool) (m : String),
        responseOnRejected st ⟨some (401, d), req, m⟩ =
          ⟨none, 1, .sessionExpired "登录已过期，请重新登录"⟩)
    ∧ (∀ (st : Option String) (e : AxiosFailure),
        (responseOnRejected st e).store ≠ st ∨ (responseOnRejected st e).redirects ≠ 0 →
          ∃ d, e.response = some (401, d)) := by
  constructor
  · intro st d req m
    simp [responseOnRejected]
  · intro st e h
    match he : e.response with
    | some (status, d) =>
        by_cases h401 : status = 401
        · exact ⟨d, by rw [h401]⟩
        · exfalso
          rcases h with h | h <;>
            simp [responseOnRejected, he, h401] at h
    | none =>
        exfalso
        by_cases hreq : e.hasRequest <;>
          rcases h with h | h <;>
            simp [responseOnRejected, he, hreq] at h

/-- C3 witness: the theorem applied at a stored token `t`, a concrete 401
failure, and a concrete non-401 failure. -/
theorem unauthorized_clears_token_and_redirects_witness :
    responseOnRejected (some "t") ⟨some (401, .null), true, "Unauthorized"⟩ =
      ⟨none, 1, .sessionExpired "登录已过期，请重新登录"⟩
    ∧ (∃ d, (⟨some (401, .null), true, "Unauthorized"⟩ : AxiosFailure).response =
        some (401, d)) :=
  ⟨unauthorized_clears_token_and_redirects.1 (some "t") .null true "Unauthorized",
    unauthorized_clears_token_and_redirects.2 (some "t")
      ⟨some (401, .null), true, "Unauthorized"⟩ (Or.inr (by simp [responseOnRejected]))⟩

/-- C8: the failure classification is total.  A failure with no HTTP
response but a request object rejects with the distinguishable generic
network-unreachable error and no side effect; a failure with neither
rejects with the original failure unmodified; and every object payload
reaching the fulfilled handler resolves to either a canonical envelope with
code 0 or an `ApiError` rejection carrying the original response. -/
theorem rejection_classification_total :
    (∀ (st : Option String) (e : AxiosFailure), e.response = none → e.hasRequest = true →
        responseOnRejected st e = ⟨st, 0, .networkError "网络错误，请检查网络连接"⟩)
    ∧ (∀ (st : Option String) (e : AxiosFailure), e.response = none → e.hasRequest = false →
        responseOnRejected st e = ⟨st, 0, .originalError e⟩)
    ∧ (∀ fs : List (String × JVal),
        (∃ env, responseOnFulfilled (.obj fs) = .fulfilled env ∧ env.get "code" = .num 0)
        ∨ (∃ m, responseOnFulfilled (.obj fs) = .apiError m (.obj fs))) := by
  refine ⟨?_, ?_, ?_⟩
  · intro st e hr hq
    simp [responseOnRejected, hr, hq]
  · intro st e hr hq
    simp [responseOnRejected, hr, hq]
  · intro fs
    by_cases hs : isSuccessShape (.obj fs)
    · exact Or.inl ⟨_, by rw [responseOnFulfilled, if_pos hs], envGet_code _ _⟩
    · exact Or.inr ⟨_, by rw [responseOnFulfilled, if_neg hs]⟩

/-- C8 witness: the theorem applied at a network-level failure, an
unexpected failure with no request object, and the empty object payload. -/
theorem rejection_classification_total_witness :
    responseOnRejected (some "t") ⟨none, true, "Network Error"⟩ =
      ⟨some "t", 0, .networkError "网络错误，请检查网络连接"⟩
    ∧ responseOnRejected (some "t") ⟨none, false, "setup failed"⟩ =
      ⟨some "t", 0, .originalError ⟨none, false, "setup failed"⟩⟩
    ∧ ((∃ env, responseOnFulfilled (.obj []) = .fulfilled env ∧ env.get "code" = .num 0)
        ∨ (∃ m, responseOnFulfilled (.obj []) = .apiError m (.obj []))) :=
  ⟨rejection_classification_total.1 (some "t") ⟨none, true, "Network Error"⟩ rfl rfl,
    rejection_classification_total.2.1 (some "t") ⟨none, false, "setup failed"⟩ rfl rfl,
    rejection_classification_total.2.2 []⟩

/-! ## Claims about the Session Controller -/

/-- C4 counterexample: starting from an authenticated session (user set,
token `t` stored), a login call that resolves with code 200 and a payload
carrying a token but no user ends with the stored token removed and the
user cleared — the `catch` block of `login` mutates both, so the claim that
neither the stored token nor the session state changes is false. -/
theorem malformed_login_clears_state :
    (login (U := Unit) ⟨some (), false, true, some "t"⟩
        (.ok ⟨200, none, some ⟨some "t2", none⟩⟩)).1.token = none
    ∧ (login (U := Unit) ⟨some (), false, true, some "t"⟩
        (.ok ⟨200, none, some ⟨some "t2", none⟩⟩)).1.user = none
    ∧ (login (U := Unit) ⟨some (), false, true, some "t"⟩
        (.ok ⟨200, none, some ⟨some "t2", none⟩⟩)).2 =
        .error (.jsError "登录响应数据不完整") :=
  ⟨rfl, rfl, rfl⟩

/-- C4 (amended): for every login call that resolves with code 200 and a
data payload lacking a truthy token or lacking the user field, `login`
rejects with the malformed-response error and ends with no stored token and
`currentUser` null (any previously stored token is removed), with the
loading flag cleared and the initialized flag untouched. -/
theorem malformed_login_rejects_and_resets {U : Type} (s : AuthState U)
    (env : Envelope (LoginData U)) (d : LoginData U)
    (hdata : env.data = some d) (hcode : env.code = 200)
    (hbad : tokenTruthy d.token = false ∨ d.user = none) :
    login s (.ok env) =
      ({ s with token := none, user := none, loading := false },
        .error (.jsError "登录响应数据不完整")) := by
  have hcond : (tokenTruthy d.token && d.user.isSome) = false := by
    rcases hbad with h | h <;> simp [h]
  rw [login]
  rw [hdata]
  simp [hcode, hcond]

/-- C4 witness: the amended theorem applied to the counterexample input
(prior token `t`, response token `t2`, no user). -/
theorem malformed_login_rejects_and_resets_witness :
    login (U := Unit) ⟨some (), false, true, some "t"⟩
        (.ok ⟨200, none, some ⟨some "t2", none⟩⟩) =
      (⟨none, false, true, none⟩,
        .error (.jsError "登录响应数据不完整")) :=
  malformed_login_rejects_and_resets ⟨some (), false, true, some "t"⟩
    ⟨200, none, some ⟨some "t2", none⟩⟩ ⟨some "t2", none⟩ rfl rfl (Or.inr rfl)

/-- C5 counterexample: `checkAuth` running with stored token `t` whose
remote current-user call rejects with a network-level error (no HTTP
response, so no 401 status) keeps the stored token — the code only discards
it on a 401, so the claim that every failure discards the token is false. -/
theorem network_failure_keeps_token :
    (checkAuth (U := Unit) ⟨none, true, false, some "t"⟩
        (.error ⟨none, "Network Error"⟩)).state.token = some "t" :=
  rfl

/-- C5 (amended): `checkAuth` with a stored truthy token never throws — for
every outcome of the remote query it completes with loading false and
initialized true; a resolved non-success envelope discards the token and
sets the user to null; a rejection classified as session-expired (status
401) discards the token and sets the user to null; any other rejection
leaves the stored token and the user unchanged. -/
theorem checkAuth_failure_classification {U : Type} (s : AuthState U)
    (r : Except JsError (Envelope U))
    (hinit : s.initialized = false) (htok : tokenTruthy s.token = true) :
    ((checkAuth s r).state.loading = false ∧ (checkAuth s r).state.initialized = true)
    ∧ (∀ env, r = .ok env → ¬(env.code = 0 ∧ env.data.isSome = true) →
        (checkAuth s r).state.token = none ∧ (checkAuth s r).state.user = none)
    ∧ (∀ e, r = .error e → e.status = some 401 →
        (checkAuth s r).state.token = none ∧ (checkAuth s r).state.user = none)
    ∧ (∀ e, r = .error e → e.status ≠ some 401 →
        (checkAuth s r).state.token = s.token ∧ (checkAuth s r).state.user = s.user) := by
  refine ⟨?_, ?_, ?_, ?_⟩
  · match r with
    | .ok env =>
        by_cases hok : env.code = 0 ∧ env.data.isSome = true <;>
          simp [checkAuth, hinit, htok, hok]
    | .error e =>
        by_cases h401 : e.status = some 401 <;>
          simp [checkAuth, hinit, htok, h401]
  · intro env hr hok
    subst hr
    simp [checkAuth, hinit, htok, hok]
  · intro e hr h401
    subst hr
    simp [checkAuth, hinit, htok, h401]
  · intro e hr h401
    subst hr
    simp [checkAuth, hinit, htok, h401]

/-- C5 witness: the amended theorem applied to a fresh state with stored
token `t` and a network-level rejection of the current-user query. -/
theorem checkAuth_failure_classification_witness :
    (((checkAuth (U := Unit) ⟨none, true, false, some "t"⟩
          (.error ⟨none, "Network Error"⟩)).state.loading = false
      ∧ (checkAuth (U := Unit) ⟨none, true, false, some "t"⟩
          (.error ⟨none, "Network Error"⟩)).state.initialized = true))
    ∧ ((checkAuth (U := Unit) ⟨none, true, false, some "t"⟩
          (.error ⟨none, "Network Error"⟩)).state.token = some "t"
      ∧ (checkAuth (U := Unit) ⟨none, true, false, some "t"⟩
          (.error ⟨none, "Network Error"⟩)).state.user = none) :=
  ⟨(checkAuth_failure_classification ⟨none, true, false, some "t"⟩
      (.error ⟨none, "Network Error"⟩) rfl rfl).1,
    (checkAuth_failure_classification (U := Unit) ⟨none, true, false, some "t"⟩
      (.error ⟨none, "Network Error"⟩) rfl rfl).2.2.2 ⟨none, "Network Error"⟩ rfl
      (by intro h; cases h)⟩

/-- C6: `logout` always leaves no stored token, the user null (ANONYMOUS),
and the initialized flag reset, whatever the prior state; and running it
twice equals running it once. -/
theorem logout_idempotent_and_anonymous {U : Type} (s : AuthState U) :
    (logout s).token = none ∧ (logout s).user = none ∧ (logout s).initialized = false
    ∧ logout (logout s) = logout s :=
  ⟨rfl, rfl, rfl, rfl⟩

/-- C7: `checkAuth` executed while uninitialized with no stored credential
token issues no network call and ends with the user null, loading false,
and initialized true (everything else untouched). -/
theorem checkAuth_no_token_no_network {U : Type} (s : AuthState U)
    (r : Except JsError (Envelope U))
    (hinit : s.initialized = false) (htok : s.token = none) :
    checkAuth s r =
      ⟨{ s with user := none, loading := false, initialized := true }, 0⟩ := by
  simp [checkAuth, hinit, htok, tokenTruthy]

/-- C7 witness: the theorem applied to the fresh mount state with empty
storage and an arbitrary (unused) remote outcome. -/
theorem checkAuth_no_token_no_network_witness :
    checkAuth (U := Unit) ⟨none, true, false, none⟩ (.ok ⟨0, none, some ()⟩) =
      ⟨⟨none, false, true, none⟩, 0⟩ :=
  checkAuth_no_token_no_network ⟨none, true, false, none⟩ (.ok ⟨0, none, some ()⟩) rfl rfl

/-- C9: in every session state reachable through `checkAuth`, `login` and
`logout` from a fresh mount, the derived `isAuthenticated` flag is true if
and only if `currentUser` is non-null (the flag is computed as `!!user` on
every render, so the invariant holds in each reachable state). -/
theorem isAuthenticated_iff_user_present {U : Type} (s : AuthState U)
    (_h : Reachable s) :
    isAuthenticated s = true ↔ s.user ≠ none := by
  cases hu : s.user <;> simp [isAuthenticated, hu]

/-- C9 witness: the theorem applied to the fresh mount state, which is
reachable by construction. -/
theorem isAuthenticated_iff_user_present_witness :
    isAuthenticated (U := Unit) ⟨none, true, false, none⟩ = true
      ↔ (⟨none, true, false, none⟩ : AuthState Unit).user ≠ none :=
  isAuthenticated_iff_user_present ⟨none, true, false, none⟩ (Reachable.boot none)

/-- C10: `login` authenticates only on envelopes with code 200 — whenever a
login call resolves without rejection the envelope's code was 200 — and an
envelope with the canonical success code 0 makes `login` reject with the
login-failure error and end with the user null and no stored token. -/
theorem login_requires_code_200 {U : Type} (s : AuthState U)
    (env : Envelope (LoginData U)) :
    (∀ st : AuthState U, login s (.ok env) = (st, .ok ()) → env.code = 200)
    ∧ (env.code = 0 →
        login s (.ok env) =
          ({ s with token := none, user := none, loading := false },
            .error (.jsError (orStr env.message "登录失败")))) := by
  constructor
  · intro st h
    match hd : env.data with
    | some d =>
        by_cases hc : env.code = 200
        · exact hc
        · exfalso
          rw [login, hd] at h
          simp [hc] at h
    | none =>
        exfalso
        rw [login, hd] at h
        simp at h
  · intro h0
    have hc : ¬ env.code = 200 := by rw [h0]; decide
    match hd : env.data with
    | some d =>
        rw [login, hd]
        simp [hc]
    | none =>
        rw [login, hd]

/-- C10 witness: the theorem applied to an envelope with canonical code 0
carrying both a token and a user, which `login` nevertheless rejects. -/
theorem login_requires_code_200_witness :
    login (U := Unit) ⟨none, false, true, none⟩
        (.ok ⟨0, some "ok", some ⟨some "t1", some ()⟩⟩) =
      (⟨none, false, true, none⟩, .error (.jsError "ok")) :=
  (login_requires_code_200 (U := Unit) ⟨none, false, true, none⟩
      ⟨0, some "ok", some ⟨some "t1", some ()⟩⟩).2 rfl

end IPProxy
